import Mathlib

/-!
Verification of the Artemis firmware uploader against its specification.

Part 1 models the visible GUI-side logic of
src/artemis_uploader/artemis_uploader.py (port scanning, baud-rate list,
upload-button dispatch, and the packaging parameters fixed in
MainWindow.__init__).

Part 2 models the upload core (blob packager, integrity codec and the
bootloader protocol session).  The modules implementing that core
(au_act_artfrmw, au_act_artasb, au_worker) are imported by the GUI but are
not part of the visible sources, so those definitions are modelled from the
specification text and are marked as such in their doc comments.
-/

namespace ArtemisUploader

/-! ### Part 1: GUI model (from src/artemis_uploader/artemis_uploader.py) -/

/-- One serial port as produced by gen_serial_ports: description, port name
and system location. -/
structure PortInfo where
  desc : String
  name : String
  sys : String
deriving DecidableEq, Repr

/-- The display string built in update_com_ports:
longname = desc + " (" + name + ")". -/
def longname (p : PortInfo) : String :=
  p.desc ++ " (" ++ p.name ++ ")"

/-- Does the pattern occur at the head of the haystack (both as char lists)? -/
def beginsWith : List Char → List Char → Bool
  | _, [] => true
  | [], _ :: _ => false
  | a :: as, b :: bs => a == b && beginsWith as bs

/-- Substring test, modelling the Python expression "CH340" in longname. -/
def containsSub : List Char → List Char → Bool
  | [], pat => pat.isEmpty
  | c :: rest, pat => beginsWith (c :: rest) pat || containsSub rest pat

/-- Port matches the CH340 test of update_com_ports. -/
def hasCH340 (p : PortInfo) : Bool :=
  containsSub (longname p).data "CH340".data

/-- The fields of MainWindow relevant to packaging, as assigned in
MainWindow.__init__ (lines 187-191 of artemis_uploader.py), together with
the checked state of the Artemis/Apollo3 board-family selector. -/
structure MainState where
  load_address_blob : Nat
  load_address_image : Nat
  magic_num : Nat
  artemisChecked : Bool
deriving DecidableEq, Repr

/-- MainWindow.__init__ sets the three packaging constants and checks the
Artemis action by default.  No other statement in the file assigns these
three attributes. -/
def initMainWindow : MainState :=
  { load_address_blob := 0xC000
    load_address_image := 0x20000
    magic_num := 0xCB
    artemisChecked := true }

/-- Effect of choosing a board family in the Board Type menu (or of
_load_settings restoring the saved choice): only the checked state changes;
the QActions are connected to no handler that touches the other fields. -/
def selectBoard (s : MainState) (artemis : Bool) : MainState :=
  { s with artemisChecked := artemis }

/-- The triple (magicNumber, loadAddressImage, loadAddressBlob) the window
holds for packaging an upload. -/
def packagingParams (s : MainState) : Nat × Nat × Nat :=
  (s.magic_num, s.load_address_image, s.load_address_blob)

/-- The baud-rate combobox items installed by update_baud_rates:
display text paired with the item data. -/
def update_baud_rates : List (String × Nat) :=
  [("115200", 115200), ("460800", 460800), ("921600", 921600)]

/-- currentData of the baud combobox when item i is selected. -/
def baudData (i : Nat) : Option Nat :=
  (update_baud_rates[i]?).map Prod.snd

/-- MainWindow.verify_port: the port is valid when its system location is
among the currently available serial ports. -/
def verify_port (ports : List PortInfo) (port : String) : Bool :=
  ports.any (fun p => p.sys == port)

/-- The job dictionary handed to the background worker by
on_upload_btn_pressed. -/
structure AxJob where
  port : String
  baud : Option Nat
  file : String
deriving DecidableEq, Repr

/-- Observable result of pressing the Upload Firmware button: the job that
was enqueued (if any), the log lines emitted, and whether the interface was
disabled. -/
structure PressResult where
  job : Option AxJob
  logLines : List String
  interfaceDisabled : Bool
deriving DecidableEq, Repr

/-- MainWindow.on_upload_btn_pressed: check the port, check that the
firmware file exists, then enqueue the job and disable the interface;
each failed check only logs a message and returns. -/
def on_upload_btn_pressed (ports : List PortInfo) (selPort : String)
    (selBaud : Option Nat) (fmwFile : String) (existingFiles : List String) :
    PressResult :=
  if verify_port ports selPort = true then
    if existingFiles.contains fmwFile = true then
      { job := some { port := selPort, baud := selBaud, file := fmwFile }
        logLines := []
        interfaceDisabled := true }
    else
      { job := none
        logLines := ["The firmware file was not found: " ++ fmwFile]
        interfaceDisabled := false }
  else
    { job := none
      logLines := ["Port No Longer Available"]
      interfaceDisabled := false }

/-- Update of indexOfCH340 for one port: only the first CH340 port is
recorded (the Python assignment is guarded by indexOfCH340 == -1). -/
def chUpdate (ch : Option Nat) (p : PortInfo) (idx : Nat) : Option Nat :=
  match ch with
  | some i => some i
  | none => if hasCH340 p then some idx else none

/-- The loop body of update_com_ports: walking the port list with the
running index, the first CH340 index found so far and the (last) index
matching the previous port.  The Python sentinel -1 is modelled as none. -/
def scanPorts : List PortInfo → String → Nat → Option Nat → Option Nat →
    Option Nat × Option Nat
  | [], _, _, ch, pv => (ch, pv)
  | p :: rest, prev, idx, ch, pv =>
      scanPorts rest prev (idx + 1) (chUpdate ch p idx)
        (if p.sys = prev then some idx else pv)

/-- The two setCurrentIndex calls at the end of update_com_ports: the
previous-port index is applied first, then the CH340 index overrides it.
When neither applies, Qt leaves the first added item selected (none when
the list is empty). -/
def pickIndex (ch pv dflt : Option Nat) : Option Nat :=
  match ch with
  | some i => some i
  | none =>
      match pv with
      | some j => some j
      | none => dflt

/-- MainWindow.update_com_ports: final selected combobox index. -/
def update_com_ports (ports : List PortInfo) (previousPort : String) :
    Option Nat :=
  pickIndex (scanPorts ports previousPort 0 none none).1
    (scanPorts ports previousPort 0 none none).2
    (if ports.isEmpty then none else some 0)

/-- Index of the first port whose longname mentions CH340. -/
def firstCHIdx : List PortInfo → Option Nat
  | [] => none
  | p :: rest => if hasCH340 p then some 0 else (firstCHIdx rest).map (· + 1)

/-! ### Theorems about the GUI model -/

/-- C1 (counterexample): switching the board-family selector from Artemis to
Apollo3 changes the checked state but leaves magicNumber, loadAddressImage
and loadAddressBlob unchanged, so the selector does not determine these
packaging parameters. -/
theorem board_selector_constant_params_cex :
    packagingParams (selectBoard initMainWindow false) =
      packagingParams initMainWindow ∧
    (selectBoard initMainWindow false).artemisChecked ≠
      initMainWindow.artemisChecked := by
  decide

/-- C1 (amended): magicNumber, loadAddressImage and loadAddressBlob are the
constants 0xCB, 0x20000 and 0xC000 fixed in MainWindow.__init__, whatever
board family is selected; the selector only records a preference. -/
theorem packaging_params_fixed (b : Bool) :
    packagingParams (selectBoard initMainWindow b) = (0xCB, 0x20000, 0xC000) := by
  cases b <;> decide

/-- The only baud values reachable through the combobox data. -/
theorem baudData_mem (i : Nat) (b : Nat) (h : baudData i = some b) :
    b = 115200 ∨ b = 460800 ∨ b = 921600 := by
  rcases i with _ | _ | _ | n
  · left
    simpa [baudData, update_baud_rates] using h.symm
  · right; left
    simpa [baudData, update_baud_rates] using h.symm
  · right; right
    simpa [baudData, update_baud_rates] using h.symm
  · simp [baudData, update_baud_rates] at h

/-- C8: the combobox offers exactly the baud rates 115200, 460800, 921600,
every selectable item datum lies in this set, and any job dispatched by the
upload button carrying a combobox baud value carries a member of this set. -/
theorem baud_rates_fixed_set :
    update_baud_rates.map Prod.snd = [115200, 460800, 921600] ∧
    (∀ i b, baudData i = some b → b = 115200 ∨ b = 460800 ∨ b = 921600) ∧
    (∀ ports selPort i fmwFile existingFiles j,
      (on_upload_btn_pressed ports selPort (baudData i) fmwFile
          existingFiles).job = some j →
      ∀ b, j.baud = some b → b = 115200 ∨ b = 460800 ∨ b = 921600) := by
  refine ⟨rfl, baudData_mem, ?_⟩
  intro ports selPort i fmwFile existingFiles j hj b hb
  have hjb : j.baud = baudData i := by
    unfold on_upload_btn_pressed at hj
    by_cases hv : verify_port ports selPort = true
    · by_cases hf : fmwFile ∈ existingFiles
      · simp [hv, hf] at hj
        subst hj
        rfl
      · simp [hv, hf] at hj
    · simp [hv] at hj
  exact baudData_mem i b (hjb ▸ hb)

/-- C8 (witness): item 0 carries 115200, which the theorem places in the
allowed set. -/
theorem baud_rates_fixed_set_witness :
    baudData 0 = some 115200 ∧
    (115200 = 115200 ∨ 115200 = 460800 ∨ 115200 = 921600) :=
  ⟨rfl, baud_rates_fixed_set.2.1 0 115200 rfl⟩

/-- C9: the upload button enqueues a job (and disables the buttons) exactly
when the selected port is still available and the firmware file exists; in
every other case no job is enqueued, the interface stays enabled and a
single log line is emitted; a dispatched job carries the selected port,
baud and file. -/
theorem upload_button_dispatch_iff (ports : List PortInfo) (selPort : String)
    (selBaud : Option Nat) (fmwFile : String) (existingFiles : List String) :
    ((on_upload_btn_pressed ports selPort selBaud fmwFile existingFiles).job.isSome
        = true ↔
      (verify_port ports selPort = true ∧
        existingFiles.contains fmwFile = true)) ∧
    ((on_upload_btn_pressed ports selPort selBaud fmwFile
        existingFiles).interfaceDisabled =
      (on_upload_btn_pressed ports selPort selBaud fmwFile
        existingFiles).job.isSome) ∧
    ((on_upload_btn_pressed ports selPort selBaud fmwFile existingFiles).job
        = none →
      (on_upload_btn_pressed ports selPort selBaud fmwFile
        existingFiles).logLines.length = 1) ∧
    (∀ j, (on_upload_btn_pressed ports selPort selBaud fmwFile
        existingFiles).job = some j →
      j.port = selPort ∧ j.baud = selBaud ∧ j.file = fmwFile ∧
      (on_upload_btn_pressed ports selPort selBaud fmwFile
        existingFiles).logLines = []) := by
  unfold on_upload_btn_pressed
  by_cases hv : verify_port ports selPort = true <;>
    by_cases hf : fmwFile ∈ existingFiles <;>
      simp [hv, hf]

/-- C9 (witness): with the selected port available and the file existing,
the button dispatches a job. -/
theorem upload_button_dispatch_iff_witness :
    (verify_port [⟨"USB Serial Device", "COM3", "loc3"⟩] "loc3" = true ∧
      ["fw.bin"].contains "fw.bin" = true) ∧
    (on_upload_btn_pressed [⟨"USB Serial Device", "COM3", "loc3"⟩] "loc3"
        (some 115200) "fw.bin" ["fw.bin"]).job.isSome = true :=
  ⟨⟨by decide, by decide⟩,
    (upload_button_dispatch_iff [⟨"USB Serial Device", "COM3", "loc3"⟩]
        "loc3" (some 115200) "fw.bin" ["fw.bin"]).1.mpr
      ⟨by decide, by decide⟩⟩

/-- chUpdate keeps an already-recorded CH340 index. -/
theorem chUpdate_some (i : Nat) (p : PortInfo) (idx : Nat) :
    chUpdate (some i) p idx = some i := rfl

/-- chUpdate records the index of a CH340 port when the slot is empty. -/
theorem chUpdate_none_pos (p : PortInfo) (idx : Nat) (hc : hasCH340 p = true) :
    chUpdate none p idx = some idx := by
  simp [chUpdate, hc]

/-- chUpdate leaves the empty slot empty for a non-CH340 port. -/
theorem chUpdate_none_neg (p : PortInfo) (idx : Nat)
    (hc : ¬hasCH340 p = true) : chUpdate none p idx = none := by
  simp [chUpdate, hc]

/-- Once the CH340 slot is filled it is never overwritten (the Python code
guards the assignment with indexOfCH340 == -1). -/
theorem scanPorts_ch_some (l : List PortInfo) (prev : String) :
    ∀ idx pv i, (scanPorts l prev idx (some i) pv).1 = some i := by
  induction l with
  | nil => intro idx pv i; rfl
  | cons p rest ih =>
      intro idx pv i
      simp only [scanPorts, chUpdate_some]
      exact ih _ _ _

/-- The scan records the index of the first CH340 port. -/
theorem scanPorts_ch_found (l : List PortInfo) (prev : String) :
    ∀ idx pv i, firstCHIdx l = some i →
      (scanPorts l prev idx none pv).1 = some (idx + i) := by
  induction l with
  | nil => intro idx pv i h; exact absurd h (by simp [firstCHIdx])
  | cons p rest ih =>
      intro idx pv i h
      by_cases hc : hasCH340 p = true
      · have hi : i = 0 := by
          simp [firstCHIdx, hc] at h
          omega
        subst hi
        simp only [scanPorts, chUpdate_none_pos p idx hc]
        rw [scanPorts_ch_some]
        simp
      · have h2 : ∃ i2, firstCHIdx rest = some i2 ∧ i = i2 + 1 := by
          simp [firstCHIdx, hc] at h
          rcases h with ⟨i2, hi2, hadd⟩
          exact ⟨i2, hi2, hadd.symm⟩
        rcases h2 with ⟨i2, hr, rfl⟩
        simp only [scanPorts, chUpdate_none_neg p idx hc]
        rw [ih _ _ _ hr]
        congr 1
        omega

/-- When no port mentions CH340, the CH340 slot stays empty. -/
theorem scanPorts_ch_none (l : List PortInfo) (prev : String) :
    ∀ idx pv, firstCHIdx l = none →
      (scanPorts l prev idx none pv).1 = none := by
  induction l with
  | nil => intro idx pv _; rfl
  | cons p rest ih =>
      intro idx pv h
      by_cases hc : hasCH340 p = true
      · simp [firstCHIdx, hc] at h
      · have h2 : firstCHIdx rest = none := by
          simpa [firstCHIdx, hc] using h
        simp only [scanPorts, chUpdate_none_neg p idx hc]
        exact ih _ _ h2

/-- When no port matches the previous port, the previous-port slot keeps
its incoming value. -/
theorem scanPorts_pv_keep (l : List PortInfo) (prev : String) :
    ∀ idx ch pv, (∀ p ∈ l, p.sys ≠ prev) →
      (scanPorts l prev idx ch pv).2 = pv := by
  induction l with
  | nil => intro idx ch pv _; rfl
  | cons p rest ih =>
      intro idx ch pv h
      have hp : p.sys ≠ prev := h p (by simp)
      simp only [scanPorts, if_neg hp]
      exact ih _ _ _ (fun q hq => h q (by simp [hq]))

/-- When some port matches the previous port, the previous-port slot ends
holding an index of a matching port. -/
theorem scanPorts_pv_found (l : List PortInfo) (prev : String) :
    ∀ idx ch pv, (∃ p ∈ l, p.sys = prev) →
      ∃ k, k < l.length ∧ (scanPorts l prev idx ch pv).2 = some (idx + k) ∧
        ∃ q, l[k]? = some q ∧ q.sys = prev := by
  induction l with
  | nil => intro idx ch pv h; simp at h
  | cons p rest ih =>
      intro idx ch pv h
      by_cases hr : ∃ p2 ∈ rest, p2.sys = prev
      · obtain ⟨k, hk, hres, q, hq, hqs⟩ := ih (idx + 1) (chUpdate ch p idx)
          (if p.sys = prev then some idx else pv) hr
        refine ⟨k + 1, by simpa using hk, ?_, q, by simpa using hq, hqs⟩
        simp only [scanPorts]
        rw [hres]
        congr 1
        omega
      · have hp : p.sys = prev := by
          rcases h with ⟨p0, hp0, hs⟩
          rcases List.mem_cons.mp hp0 with h1 | h2
          · exact h1 ▸ hs
          · exact absurd ⟨p0, h2, hs⟩ hr
        refine ⟨0, by simp, ?_, p, by simp, hp⟩
        simp only [scanPorts, if_pos hp]
        have hkeep := scanPorts_pv_keep rest prev (idx + 1) (chUpdate ch p idx)
          (some idx) (fun q hq hqs => hr ⟨q, hq, hqs⟩)
        rw [hkeep]
        simp

/-- C10: after update_com_ports, if the longname of any available port contains
CH340 the first such port is selected whatever the previous port was; when
no CH340 port is present and the previous port is still available, the
selected index points at a port whose system location equals the previous
port. -/
theorem update_com_ports_ch340_priority (ports : List PortInfo) (prev : String) :
    (∀ i, firstCHIdx ports = some i → update_com_ports ports prev = some i) ∧
    (firstCHIdx ports = none →
      (∃ p ∈ ports, p.sys = prev) →
      ∃ k q, update_com_ports ports prev = some k ∧ ports[k]? = some q ∧
        q.sys = prev) := by
  constructor
  · intro i h
    have h1 := scanPorts_ch_found ports prev 0 none i h
    unfold update_com_ports
    rw [h1]
    simp [pickIndex]
  · intro hnone hex
    have h1 := scanPorts_ch_none ports prev 0 none hnone
    obtain ⟨k, _, hres, q, hq, hqs⟩ := scanPorts_pv_found ports prev 0 none none hex
    refine ⟨k, q, ?_, hq, hqs⟩
    unfold update_com_ports
    rw [h1, hres]
    simp [pickIndex]

/-- C10 (witness): with the previously selected port first in the list and
a CH340 adapter second, the CH340 entry wins the selection. -/
theorem update_com_ports_ch340_priority_witness :
    firstCHIdx [⟨"USB Serial Device", "COM3", "loc3"⟩,
        ⟨"USB-SERIAL CH340", "COM4", "loc4"⟩] = some 1 ∧
    update_com_ports [⟨"USB Serial Device", "COM3", "loc3"⟩,
        ⟨"USB-SERIAL CH340", "COM4", "loc4"⟩] "loc3" = some 1 :=
  ⟨by decide,
    (update_com_ports_ch340_priority [⟨"USB Serial Device", "COM3", "loc3"⟩,
        ⟨"USB-SERIAL CH340", "COM4", "loc4"⟩] "loc3").1 1 (by decide)⟩

/-! ### Part 2: the upload core, modelled from the spec

The packaging pipeline and the bootloader protocol session are implemented
in au_act_artfrmw / au_act_artasb, which the GUI imports but which are not
among the visible sources; every definition below is therefore modelled
from the specification text (sections 3, 4.1, 4.2, 4.4, 5 and 7). -/

/-- Error taxonomy of section 7. -/
inductive UploadError where
  | invalidImage
  | portUnavailable
  | handshakeTimeout
  | frameIntegrity
  | protocolTimeout
  | unexpectedResponse
  | ioError
deriving DecidableEq, Repr

/-- Terminal status of one upload attempt. -/
inductive Outcome where
  | done
  | aborted (e : UploadError)
deriving DecidableEq, Repr

/-- Modelled from the spec: the Integrity Codec checksum of section 4.1, a
deterministic, order-sensitive integrity code over a byte sequence, reduced
modulo the 32-bit word in which the containers store it. -/
def checksum (bs : List Nat) : Nat :=
  bs.foldl (fun acc b => (acc * 31 + b % 256) % 4294967296) 0

/-- Little-endian 32-bit serialization of a header word. -/
def word32 (n : Nat) : List Nat :=
  [n % 256, n / 256 % 256, n / 65536 % 256, n / 16777216 % 256]

/-- Largest value representable in a container length field (32 bits). -/
def maxLenField : Nat := 4294967295

/-- Smallest multiple of the word size (4) that fits n bytes. -/
def wordAlign (n : Nat) : Nat := 4 * ((n + 3) / 4)

/-- Modelled from the spec: the payload is the raw image padded to a word
boundary with zero bytes (section 3, OtaContainer). -/
def padPayload (img : List Nat) : List Nat :=
  img ++ List.replicate (wordAlign img.length - img.length) 0

/-- OtaContainer of section 3: header fields plus padded payload. -/
structure OtaContainer where
  length : Nat
  magicNumber : Nat
  loadAddressImage : Nat
  integrityCode : Nat
  payload : List Nat
deriving DecidableEq, Repr, Inhabited

/-- Serialization of an OtaContainer with an explicit value in the
integrity field. -/
def serializeOtaWith (code : Nat) (c : OtaContainer) : List Nat :=
  word32 c.length ++ word32 c.magicNumber ++ word32 c.loadAddressImage ++
    word32 code ++ c.payload

/-- Wire bytes of an OtaContainer. -/
def serializeOta (c : OtaContainer) : List Nat :=
  serializeOtaWith c.integrityCode c

/-- Serialized OtaContainer with the integrity field zeroed, the input of
the checksum per section 4.1. -/
def serializeOtaZeroed (c : OtaContainer) : List Nat :=
  serializeOtaWith 0 c

/-- The OTA container before its integrity code is filled in. -/
def mkOta (img : List Nat) (loadAddressImage magicNumber : Nat) : OtaContainer :=
  { length := (padPayload img).length
    magicNumber := magicNumber
    loadAddressImage := loadAddressImage
    integrityCode := 0
    payload := padPayload img }

/-- Modelled from the spec: packageOta of section 4.2.  Pads the payload,
rejects images whose length exceeds the length field, and stores a freshly
computed integrity code over the zeroed serialization. -/
def packageOta (img : List Nat) (loadAddressImage magicNumber : Nat) :
    Except UploadError OtaContainer :=
  if maxLenField < img.length then Except.error UploadError.invalidImage
  else
    Except.ok
      { mkOta img loadAddressImage magicNumber with
        integrityCode :=
          checksum (serializeOtaZeroed (mkOta img loadAddressImage magicNumber)) }

/-- WiredContainer of section 3: second-layer header plus the serialized
OTA container bytes. -/
structure WiredContainer where
  length : Nat
  loadAddressBlob : Nat
  integrityCode : Nat
  otaBytes : List Nat
deriving DecidableEq, Repr, Inhabited

/-- Serialization of a WiredContainer with an explicit integrity value. -/
def serializeWiredWith (code : Nat) (w : WiredContainer) : List Nat :=
  word32 w.length ++ word32 w.loadAddressBlob ++ word32 code ++ w.otaBytes

/-- Wire bytes of a WiredContainer. -/
def serializeWired (w : WiredContainer) : List Nat :=
  serializeWiredWith w.integrityCode w

/-- Serialized WiredContainer with the integrity field zeroed. -/
def serializeWiredZeroed (w : WiredContainer) : List Nat :=
  serializeWiredWith 0 w

/-- The wired container before its integrity code is filled in. -/
def mkWired (ota : OtaContainer) (loadAddressBlob : Nat) : WiredContainer :=
  { length := (serializeOta ota).length
    loadAddressBlob := loadAddressBlob
    integrityCode := 0
    otaBytes := serializeOta ota }

/-- Modelled from the spec: packageWired of section 4.2.  Serializes the
OTA container first, applies the same size constraint to the wired length
field, and recomputes the integrity code over the zeroed serialization. -/
def packageWired (ota : OtaContainer) (loadAddressBlob : Nat) :
    Except UploadError WiredContainer :=
  if maxLenField < (serializeOta ota).length then
    Except.error UploadError.invalidImage
  else
    Except.ok
      { mkWired ota loadAddressBlob with
        integrityCode :=
          checksum (serializeWiredZeroed (mkWired ota loadAddressBlob)) }

/-- The full image-to-wire packaging pipeline: raw image to the byte
stream handed to the bootloader session. -/
def pipelineBytes (img : List Nat)
    (loadAddressImage magicNumber loadAddressBlob : Nat) :
    Except UploadError (List Nat) :=
  match packageOta img loadAddressImage magicNumber with
  | Except.error e => Except.error e
  | Except.ok ota =>
      match packageWired ota loadAddressBlob with
      | Except.error e => Except.error e
      | Except.ok w => Except.ok (serializeWired w)

/-! ### Theorems about the packager -/

/-- C4: the packaging pipeline is a pure function of the image and the
packaging parameters; runs on identical inputs give byte-identical output
(there is no time, randomness or other ambient state in the model, matching
the no-timestamp/no-random-padding specification). -/
theorem pipeline_deterministic (img1 img2 : List Nat)
    (loadAddressImage magicNumber loadAddressBlob : Nat) (h : img1 = img2) :
    pipelineBytes img1 loadAddressImage magicNumber loadAddressBlob =
      pipelineBytes img2 loadAddressImage magicNumber loadAddressBlob := by
  rw [h]

/-- C4 (witness): two runs on the same three-byte image agree. -/
theorem pipeline_deterministic_witness :
    ([1, 2, 3] : List Nat) = [1, 2, 3] ∧
    pipelineBytes [1, 2, 3] 0x20000 0xCB 0xC000 =
      pipelineBytes [1, 2, 3] 0x20000 0xCB 0xC000 :=
  ⟨rfl, pipeline_deterministic [1, 2, 3] [1, 2, 3] 0x20000 0xCB 0xC000 rfl⟩

/-- Writing the integrity field does not change the zeroed serialization of
an OTA container. -/
theorem serializeOtaZeroed_setCode (c : OtaContainer) (v : Nat) :
    serializeOtaZeroed { c with integrityCode := v } = serializeOtaZeroed c := rfl

/-- Writing the integrity field of an OTA container leaves its length. -/
theorem otaLength_setCode (c : OtaContainer) (v : Nat) :
    ({ c with integrityCode := v } : OtaContainer).length = c.length := rfl

/-- Reading back the integrity field just written. -/
theorem otaCode_setCode (c : OtaContainer) (v : Nat) :
    ({ c with integrityCode := v } : OtaContainer).integrityCode = v := rfl

/-- Writing the integrity field does not change the zeroed serialization of
a wired container. -/
theorem serializeWiredZeroed_setCode (w : WiredContainer) (v : Nat) :
    serializeWiredZeroed { w with integrityCode := v } = serializeWiredZeroed w := rfl

/-- Writing the integrity field of a wired container leaves its length. -/
theorem wiredLength_setCode (w : WiredContainer) (v : Nat) :
    ({ w with integrityCode := v } : WiredContainer).length = w.length := rfl

/-- Reading back the integrity field just written. -/
theorem wiredCode_setCode (w : WiredContainer) (v : Nat) :
    ({ w with integrityCode := v } : WiredContainer).integrityCode = v := rfl

/-- C5: every container built by the packager stores an integrity code
that recomputing over its zeroed serialization reproduces, and stores as
length the padded payload length (for the wired layer: the length of the
serialized OTA container it wraps); the code is recomputed from the built
container, never taken from the input. -/
theorem integrity_recompute_roundtrip :
    (∀ img loadAddressImage magicNumber c,
      packageOta img loadAddressImage magicNumber = Except.ok c →
      checksum (serializeOtaZeroed c) = c.integrityCode ∧
      c.length = (padPayload img).length) ∧
    (∀ ota loadAddressBlob w,
      packageWired ota loadAddressBlob = Except.ok w →
      checksum (serializeWiredZeroed w) = w.integrityCode ∧
      w.length = (serializeOta ota).length) := by
  constructor
  · intro img loadAddressImage magicNumber c h
    rw [packageOta] at h
    by_cases hlen : maxLenField < img.length
    · simp [hlen] at h
    · simp only [if_neg hlen, Except.ok.injEq] at h
      subst h
      refine ⟨?_, ?_⟩
      · rw [serializeOtaZeroed_setCode, otaCode_setCode]
      · rw [otaLength_setCode]
        rfl
  · intro ota loadAddressBlob w h
    rw [packageWired] at h
    by_cases hlen : maxLenField < (serializeOta ota).length
    · simp [hlen] at h
    · simp only [if_neg hlen, Except.ok.injEq] at h
      subst h
      refine ⟨?_, ?_⟩
      · rw [serializeWiredZeroed_setCode, wiredCode_setCode]
      · rw [wiredLength_setCode]
        rfl

deriving instance DecidableEq for Except

/-- The OTA container built from the three-byte example image. -/
def otaExample : OtaContainer :=
  (packageOta [1, 2, 3] 0x20000 0xCB).toOption.getD default

/-- The wired container built from the example OTA container. -/
def wiredExample : WiredContainer :=
  (packageWired otaExample 0xC000).toOption.getD default

/-- C5 (witness): the round-trip identities instantiated on a concrete
three-byte image at both packaging layers. -/
theorem integrity_recompute_roundtrip_witness :
    packageOta [1, 2, 3] 0x20000 0xCB = Except.ok otaExample ∧
    packageWired otaExample 0xC000 = Except.ok wiredExample ∧
    checksum (serializeOtaZeroed otaExample) = otaExample.integrityCode ∧
    wiredExample.length = (serializeOta otaExample).length :=
  ⟨by decide, by decide,
    (integrity_recompute_roundtrip.1 [1, 2, 3] 0x20000 0xCB otaExample
      (by decide)).1,
    (integrity_recompute_roundtrip.2 otaExample 0xC000 wiredExample
      (by decide)).2⟩

/-! ### Bootloader session, modelled from the spec (section 4.4) -/

/-- One device request during the transfer phase, or the transfer-complete
indication. -/
inductive DevResp where
  | nextFrame
  | resendFrame
  | done
deriving DecidableEq, Repr

/-- Protocol phase in which a blocking read happens. -/
inductive Phase where
  | baudDetect
  | transferring
deriving DecidableEq, Repr

/-- The two timeout classes of section 5: the short detection timeout and
the long uniform protocol timeout. -/
inductive TimeoutClass where
  | short
  | long
deriving DecidableEq, Repr

/-- Observable result of the transfer phase: the terminal outcome, the
progress events (bytesSent, totalBytes) emitted after each acknowledged
frame, the payload length of every frame written to the wire, and the
number of blocking reads performed. -/
structure LoopResult where
  outcome : Outcome
  progress : List (Nat × Nat)
  frames : List Nat
  reads : Nat
deriving DecidableEq, Repr

/-- Modelled from the spec: the Transferring/Completing loop of section
4.4.  The device is the requester: each device message is answered by domain
logic on the host.  State: sent = bytes already acknowledged, inflight =
size of the frame currently on the wire (none before the first request),
retry = re-request count for the current frame.  A missing response is a
read timeout (ProtocolTimeoutError); a resend request beyond the
caller-configured maximum aborts with FrameIntegrityError; a next-frame
request acknowledges the in-flight frame, emits a progress event and sends
the next chunk; the done indication after the last byte ends in Done and
anything unexpected aborts with UnexpectedResponseError. -/
def transferLoop (total frameSize maxRetries : Nat) :
    Nat → Option Nat → Nat → List DevResp → LoopResult
  | _, _, _, [] =>
      { outcome := Outcome.aborted UploadError.protocolTimeout
        progress := [], frames := [], reads := 1 }
  | sent, none, _, DevResp.nextFrame :: rs =>
      if sent < total then
        let n := min frameSize (total - sent)
        let r := transferLoop total frameSize maxRetries sent (some n) 0 rs
        { r with frames := n :: r.frames, reads := r.reads + 1 }
      else
        { outcome := Outcome.aborted UploadError.unexpectedResponse
          progress := [], frames := [], reads := 1 }
  | sent, some n, _, DevResp.nextFrame :: rs =>
      if sent + n < total then
        let m := min frameSize (total - (sent + n))
        let r := transferLoop total frameSize maxRetries (sent + n) (some m) 0 rs
        { r with
          progress := (sent + n, total) :: r.progress
          frames := m :: r.frames
          reads := r.reads + 1 }
      else
        { outcome := Outcome.aborted UploadError.unexpectedResponse
          progress := [(sent + n, total)], frames := [], reads := 1 }
  | sent, some n, retry, DevResp.resendFrame :: rs =>
      if maxRetries ≤ retry then
        { outcome := Outcome.aborted UploadError.frameIntegrity
          progress := [], frames := [], reads := 1 }
      else
        let r := transferLoop total frameSize maxRetries sent (some n) (retry + 1) rs
        { r with frames := n :: r.frames, reads := r.reads + 1 }
  | _, none, _, DevResp.resendFrame :: _ =>
      { outcome := Outcome.aborted UploadError.unexpectedResponse
        progress := [], frames := [], reads := 1 }
  | sent, some n, _, DevResp.done :: _ =>
      if sent + n = total then
        { outcome := Outcome.done, progress := [(total, total)]
          frames := [], reads := 1 }
      else
        { outcome := Outcome.aborted UploadError.unexpectedResponse
          progress := [(sent + n, total)], frames := [], reads := 1 }
  | sent, none, _, DevResp.done :: _ =>
      if sent = total then
        { outcome := Outcome.done, progress := [], frames := [], reads := 1 }
      else
        { outcome := Outcome.aborted UploadError.unexpectedResponse
          progress := [], frames := [], reads := 1 }

/-- The transfer phase run over a blob of bytes. -/
def runTransfer (blob : List Nat) (frameSize maxRetries : Nat)
    (rs : List DevResp) : LoopResult :=
  transferLoop blob.length frameSize maxRetries 0 none 0 rs

/-- The device side of one upload attempt: what (if anything) it answers
during baud detection, and its stream of transfer-phase requests. -/
structure DeviceModel where
  detectReply : Option Nat
  responses : List DevResp
deriving DecidableEq, Repr

/-- Caller configuration of one upload session. -/
structure SessionConfig where
  loadAddressImage : Nat
  magicNumber : Nat
  loadAddressBlob : Nat
  frameSize : Nat
  maxRetries : Nat
deriving DecidableEq, Repr

/-- Observable result of a whole upload attempt. -/
structure SessionResult where
  outcome : Outcome
  progress : List (Nat × Nat)
  frames : List Nat
  reads : List (Phase × TimeoutClass)
  openedTransport : Bool
  bootloaderVersion : Option Nat
deriving DecidableEq, Repr

/-- Both packaging layers applied to the input image. -/
def packageForUpload (img : List Nat) (cfg : SessionConfig) :
    Except UploadError WiredContainer :=
  match packageOta img cfg.loadAddressImage cfg.magicNumber with
  | Except.error e => Except.error e
  | Except.ok ota => packageWired ota cfg.loadAddressBlob

/-- Session result when packaging fails: no transport is ever opened and
no read is performed. -/
def failedSession (e : UploadError) : SessionResult :=
  { outcome := Outcome.aborted e, progress := [], frames := []
    reads := [], openedTransport := false, bootloaderVersion := none }

/-- Modelled from the spec: the part of the session after the transport is
opened.  The training character is written and one read with the short
detection timeout waits for the version packet; silence there is
HandshakeTimeoutError.  After a version packet arrives, the version is
captured, the begin command is sent and the transfer loop runs; every read
of the transfer loop uses the long protocol timeout. -/
def openSession (w : WiredContainer) (cfg : SessionConfig)
    (dev : DeviceModel) : SessionResult :=
  match dev.detectReply with
  | none =>
      { outcome := Outcome.aborted UploadError.handshakeTimeout
        progress := [], frames := []
        reads := [(Phase.baudDetect, TimeoutClass.short)]
        openedTransport := true, bootloaderVersion := none }
  | some v =>
      { outcome := (runTransfer (serializeWired w) cfg.frameSize
          cfg.maxRetries dev.responses).outcome
        progress := (runTransfer (serializeWired w) cfg.frameSize
          cfg.maxRetries dev.responses).progress
        frames := (runTransfer (serializeWired w) cfg.frameSize
          cfg.maxRetries dev.responses).frames
        reads := (Phase.baudDetect, TimeoutClass.short) ::
          List.replicate (runTransfer (serializeWired w) cfg.frameSize
            cfg.maxRetries dev.responses).reads
            (Phase.transferring, TimeoutClass.long)
        openedTransport := true, bootloaderVersion := some v }

/-- Modelled from the spec: runUploadSession of section 6.  Packaging runs
first and its failure aborts before any transport is opened; otherwise the
transport is opened and the protocol session runs. -/
def runUploadSession (img : List Nat) (cfg : SessionConfig)
    (dev : DeviceModel) : SessionResult :=
  match packageForUpload img cfg with
  | Except.error e => failedSession e
  | Except.ok w => openSession w cfg dev

/-! ### Theorems about the session -/

/-- Processing nothing but resend requests with a frame of size n on the
wire exhausts the caller-configured retry budget: after maxRetries - retry
further transmissions the next re-request aborts with FrameIntegrityError. -/
theorem transferLoop_resend_all (total frameSize maxRetries sent n : Nat) :
    ∀ k retry, retry ≤ maxRetries → maxRetries - retry < k →
      transferLoop total frameSize maxRetries sent (some n) retry
          (List.replicate k DevResp.resendFrame) =
        { outcome := Outcome.aborted UploadError.frameIntegrity
          progress := []
          frames := List.replicate (maxRetries - retry) n
          reads := maxRetries - retry + 1 } := by
  intro k
  induction k with
  | zero => intro retry _ h2; omega
  | succ k ih =>
      intro retry h1 h2
      rw [List.replicate_succ]
      by_cases hr : maxRetries ≤ retry
      · have h0 : maxRetries - retry = 0 := by omega
        simp [transferLoop, hr, h0]
      · simp only [transferLoop, if_neg hr]
        rw [ih (retry + 1) (by omega) (by omega)]
        have hmr : maxRetries - retry = (maxRetries - (retry + 1)) + 1 := by
          omega
        rw [hmr]
        simp [List.replicate_succ]

/-- C2: against a transport on which the device reports CRC failure on
every exchange, the session transmits the frame once, re-transmits it
maxRetries times, and the re-request beyond the budget terminates the whole
upload with FrameIntegrityError: exactly maxRetries + 1 transmissions of
that frame, never an infinite loop. -/
theorem frame_retry_budget_aborts (total frameSize maxRetries k : Nat)
    (htot : 0 < total) (hk : maxRetries < k) :
    (transferLoop total frameSize maxRetries 0 none 0
        (DevResp.nextFrame :: List.replicate k DevResp.resendFrame)).outcome =
      Outcome.aborted UploadError.frameIntegrity ∧
    (transferLoop total frameSize maxRetries 0 none 0
        (DevResp.nextFrame :: List.replicate k DevResp.resendFrame)).frames.length =
      maxRetries + 1 := by
  simp only [transferLoop, if_pos htot]
  rw [transferLoop_resend_all total frameSize maxRetries 0 _ k 0
    (Nat.zero_le _) (by omega)]
  simp

/-- C2 (witness): a 10-byte blob, frame size 4, retry budget 2, and three
consecutive resend requests end in FrameIntegrityError. -/
theorem frame_retry_budget_aborts_witness :
    (0 : Nat) < 10 ∧ (2 : Nat) < 3 ∧
    (transferLoop 10 4 2 0 none 0
        (DevResp.nextFrame :: List.replicate 3 DevResp.resendFrame)).outcome =
      Outcome.aborted UploadError.frameIntegrity :=
  ⟨by decide, by decide,
    (frame_retry_budget_aborts 10 4 2 3 (by decide) (by decide)).1⟩

/-- Bool test that the first components of consecutive progress events are
strictly increasing. -/
def strictlyIncreasing : List (Nat × Nat) → Bool
  | [] => true
  | [_] => true
  | a :: b :: rest => decide (a.1 < b.1) && strictlyIncreasing (b :: rest)

/-- C3: transferring a 10,000-byte stream with 512-byte frames to a device
that accepts every frame sends exactly 20 frames, the last of payload
length 272, with strictly increasing progress events ending at
(10000, 10000), and terminates in Done. -/
theorem end_to_end_10000_bytes :
    (runTransfer (List.replicate 10000 0) 512 4
        (List.replicate 20 DevResp.nextFrame ++ [DevResp.done])).outcome =
      Outcome.done ∧
    (runTransfer (List.replicate 10000 0) 512 4
        (List.replicate 20 DevResp.nextFrame ++ [DevResp.done])).frames.length
      = 20 ∧
    (runTransfer (List.replicate 10000 0) 512 4
        (List.replicate 20 DevResp.nextFrame ++ [DevResp.done])).frames.getLast?
      = some 272 ∧
    strictlyIncreasing
      (runTransfer (List.replicate 10000 0) 512 4
        (List.replicate 20 DevResp.nextFrame ++ [DevResp.done])).progress
      = true ∧
    (runTransfer (List.replicate 10000 0) 512 4
        (List.replicate 20 DevResp.nextFrame ++ [DevResp.done])).progress.getLast?
      = some (10000, 10000) := by
  have h : runTransfer (List.replicate 10000 (0 : Nat)) 512 4
      (List.replicate 20 DevResp.nextFrame ++ [DevResp.done]) =
      transferLoop 10000 512 4 0 none 0
        (List.replicate 20 DevResp.nextFrame ++ [DevResp.done]) := by
    rw [runTransfer, List.length_replicate]
  rw [h]
  decide

/-- Every read of every session run carries the short timeout class exactly
when it is the baud-detection read; all transfer reads use the long class. -/
theorem sessionReads_short_iff (img : List Nat) (cfg : SessionConfig)
    (dev : DeviceModel) :
    ∀ e ∈ (runUploadSession img cfg dev).reads,
      (e.2 = TimeoutClass.short ↔ e.1 = Phase.baudDetect) := by
  intro e he
  unfold runUploadSession at he
  rcases hpfu : packageForUpload img cfg with e1 | w
  · rw [hpfu] at he
    simp [failedSession] at he
  · rw [hpfu] at he
    have he2 : e ∈ (openSession w cfg dev).reads := he
    clear he
    unfold openSession at he2
    rcases hdr : dev.detectReply with _ | v
    · rw [hdr] at he2
      simp at he2
      rw [he2]
      simp
    · rw [hdr] at he2
      simp at he2
      rcases he2 with he2 | he2
      · rw [he2]
        simp
      · rw [he2.2]
        simp

/-- C6: when the transport opens but the device stays silent during baud
detection, the attempt aborts with HandshakeTimeoutError; the detection
read is the only read governed by the short timeout class and every later
read of any session uses the long protocol timeout. -/
theorem baud_detect_silent_times_out (img : List Nat) (cfg : SessionConfig)
    (dev : DeviceModel)
    (hopen : (runUploadSession img cfg dev).openedTransport = true)
    (hsilent : dev.detectReply = none) :
    (runUploadSession img cfg dev).outcome =
      Outcome.aborted UploadError.handshakeTimeout ∧
    (∀ img2 cfg2 dev2, ∀ e ∈ (runUploadSession img2 cfg2 dev2).reads,
      (e.2 = TimeoutClass.short ↔ e.1 = Phase.baudDetect)) := by
  refine ⟨?_, fun img2 cfg2 dev2 => sessionReads_short_iff img2 cfg2 dev2⟩
  unfold runUploadSession at hopen ⊢
  rcases hpfu : packageForUpload img cfg with e1 | w
  · rw [hpfu] at hopen
    simp [failedSession] at hopen
  · show (openSession w cfg dev).outcome =
      Outcome.aborted UploadError.handshakeTimeout
    unfold openSession
    rw [hsilent]

/-- C6 (witness): an empty image packages fine, the transport opens, and a
silent device produces HandshakeTimeoutError. -/
theorem baud_detect_silent_times_out_witness :
    (runUploadSession [] ⟨131072, 203, 49152, 512, 4⟩
        ⟨none, []⟩).openedTransport = true ∧
    ((⟨none, []⟩ : DeviceModel)).detectReply = none ∧
    (runUploadSession [] ⟨131072, 203, 49152, 512, 4⟩ ⟨none, []⟩).outcome =
      Outcome.aborted UploadError.handshakeTimeout :=
  ⟨by decide, by decide,
    (baud_detect_silent_times_out [] ⟨131072, 203, 49152, 512, 4⟩ ⟨none, []⟩
      (by decide) (by decide)).1⟩

/-- C7: an image longer than the length field can represent is rejected by
packageOta with InvalidImageError, the whole session aborts with that
error, and no serial transport is ever opened. -/
theorem oversized_image_rejected (img : List Nat) (cfg : SessionConfig)
    (dev : DeviceModel) (h : maxLenField < img.length) :
    packageOta img cfg.loadAddressImage cfg.magicNumber =
      Except.error UploadError.invalidImage ∧
    (runUploadSession img cfg dev).outcome =
      Outcome.aborted UploadError.invalidImage ∧
    (runUploadSession img cfg dev).openedTransport = false := by
  have hpo : packageOta img cfg.loadAddressImage cfg.magicNumber =
      Except.error UploadError.invalidImage := by
    rw [packageOta, if_pos h]
  have hpfu : packageForUpload img cfg =
      Except.error UploadError.invalidImage := by
    unfold packageForUpload
    rw [hpo]
  refine ⟨hpo, ?_, ?_⟩ <;>
    · unfold runUploadSession
      rw [hpfu]
      rfl

/-- C7 (witness): an image one byte longer than the maximum length field
value is rejected. -/
theorem oversized_image_rejected_witness :
    maxLenField < (List.replicate (maxLenField + 1) (0 : Nat)).length ∧
    packageOta (List.replicate (maxLenField + 1) (0 : Nat)) 131072 203 =
      Except.error UploadError.invalidImage := by
  have h : maxLenField < (List.replicate (maxLenField + 1) (0 : Nat)).length := by
    rw [List.length_replicate]
    omega
  exact ⟨h, (oversized_image_rejected (List.replicate (maxLenField + 1) (0 : Nat))
    ⟨131072, 203, 49152, 512, 4⟩ ⟨none, []⟩ h).1⟩

end ArtemisUploader
